import Mathlib

/-!
Verification of `src/source/stable_diffusion.py` (Peekaboo's wrapper around a
latent diffusion model) against its natural-language specification.

Shallow embedding conventions:
* A torch tensor is modelled as a `shape` (list of dimension sizes) together
  with flat row-major `data` over exact rationals (`ℚ` stands in for the float
  values; no claim here depends on rounding).
* The pretrained external collaborators (tokenizer, text encoder, VAE, UNet,
  noise scheduler, random draws) are fields of an `Env` record, constrained
  exactly by the narrow numeric contracts of spec §6 (proof fields).
* Python `assert` statements become explicit checks returning an error;
  following the spec's §7 taxonomy, precondition asserts map to
  `Err.invalidInput` and tensor-shape asserts map to `Err.shapeMismatch`.
* Mutable state: the only mutable attribute any of the modelled methods writes
  is the scheduler's timestep schedule (`set_timesteps`), modelled as an
  explicit `SDState` passed in and returned.
* Autodiff effects of `train_step` are modelled as an effect record: the list
  of `.backward` invocations (root tensor, upstream gradient, retain_graph)
  and counters of UNet evaluations inside / outside `torch.no_grad()`.
-/

/-- A torch tensor: dimension sizes plus flat row-major data over `ℚ`. -/
structure Tensor where
  shape : List ℕ
  data : List ℚ
deriving DecidableEq, Repr

/-- Number of dimensions (`len(t.shape)`). -/
def Tensor.rank (t : Tensor) : ℕ := t.shape.length

/-- Leading (batch) dimension, `t.shape[0]` (`len(t)` in Python). -/
def Tensor.batch (t : Tensor) : ℕ := t.shape.headD 0

/-- Second dimension `t.shape[1]` (channel axis for rank-4 tensors). -/
def Tensor.dim1 (t : Tensor) : ℕ := t.shape.tail.headD 0

/-- Number of scalars in one batch item. -/
def Tensor.rowSize (t : Tensor) : ℕ := t.shape.tail.prod

/-- The flat data of batch item `i` (`t[i]` viewed as raw data). -/
def Tensor.row (t : Tensor) (i : ℕ) : List ℚ :=
  (t.data.drop (i * t.rowSize)).take t.rowSize

/-- Elementwise map (shape preserved). -/
def Tensor.emap (f : ℚ → ℚ) (t : Tensor) : Tensor := ⟨t.shape, t.data.map f⟩

/-- Elementwise combination of two same-shaped tensors. -/
def Tensor.zip2 (f : ℚ → ℚ → ℚ) (a b : Tensor) : Tensor :=
  ⟨a.shape, List.zipWith f a.data b.data⟩

/-- Scalar multiplication `c * t`. -/
def Tensor.smul (c : ℚ) (t : Tensor) : Tensor := t.emap (fun x => c * x)

/-- Elementwise difference `a - b`. -/
def Tensor.sub (a b : Tensor) : Tensor := Tensor.zip2 (fun x y => x - y) a b

/-- `torch.cat([a, b])` along the batch axis (callers always pass equal tails). -/
def Tensor.cat2 (a b : Tensor) : Tensor :=
  ⟨(a.batch + b.batch) :: a.shape.tail, a.data ++ b.data⟩

/-- `t.chunk(2)` along the batch axis (callers only use it on even batches). -/
def Tensor.chunk2 (t : Tensor) : Tensor × Tensor :=
  (⟨t.batch / 2 :: t.shape.tail, t.data.take (t.batch / 2 * t.rowSize)⟩,
   ⟨(t.batch - t.batch / 2) :: t.shape.tail, t.data.drop (t.batch / 2 * t.rowSize)⟩)

/-- `t[None]`: add a leading singleton batch axis. -/
def Tensor.unsqueeze (t : Tensor) : Tensor := ⟨1 :: t.shape, t.data⟩

/-- `t[0]`: drop the leading batch axis, keeping the first item. -/
def Tensor.index0 (t : Tensor) : Tensor :=
  ⟨t.shape.tail, t.data.take t.shape.tail.prod⟩

/-- `torch.stack(rows)` for rows that are flat data of shape `rowShape`. -/
def stackRows (rows : List (List ℚ)) (rowShape : List ℕ) : Tensor :=
  ⟨rows.length :: rowShape, rows.flatten⟩

/-- Failure taxonomy (spec §7): precondition violations (`invalidInput`),
shape-assertion failures (`shapeMismatch`), plus the concrete Python
exception kinds the code can actually raise. -/
inductive Err where
  | invalidInput
  | shapeMismatch
  | indexError
  | valueError
  | typeError
  | attributeError
deriving DecidableEq, Repr

/-- An element of the `prompts` argument: a string, or some non-string value
(the spec only cares whether it is string-like). -/
inductive PromptItem where
  | str (s : String)
  | nonStr
deriving DecidableEq

/-- Whether the item is string-like. -/
def PromptItem.isStr : PromptItem → Bool
  | .str _ => true
  | .nonStr => false

/-- Underlying text (irrelevant for non-strings, which never reach the model). -/
def PromptItem.text : PromptItem → String
  | .str s => s
  | .nonStr => ""

/-- One recorded `tensor.backward(gradient=..., retain_graph=...)` invocation:
the tensor whose graph is differentiated, the externally injected upstream
gradient, and whether the graph is retained. -/
structure BackwardCall where
  root : Tensor
  gradient : Tensor
  retainGraph : Bool
deriving DecidableEq, Repr

/-- The external collaborators of spec §6 (tokenizer, text encoder, VAE, UNet,
scheduler, random draws), each constrained by exactly the narrow shape
contract the spec assigns to it. All are read-only after construction. -/
structure Env where
  /-- Tokenizer: text to a fixed-length (L = 77) integer sequence. -/
  tokenize : String → List ℕ
  /-- Text encoder: token sequence to one embedding row (77 × 768 scalars),
  deterministic. -/
  textEncodeRow : List ℕ → List ℚ
  /-- `F.interpolate(·, (512, 512), mode='bilinear', align_corners=False)`. -/
  interpolate512 : Tensor → Tensor
  /-- VAE probabilistic encoder plus one sample from the latent distribution. -/
  vaeEnc : Tensor → Tensor
  /-- VAE decoder. -/
  vaeDec : Tensor → Tensor
  /-- Denoising UNet: `(latent_batch, timestep, conditioning) ↦ noise_pred`,
  same shape as `latent_batch`. -/
  unet : Tensor → ℕ → Tensor → Tensor
  /-- Scheduler forward-noising `add_noise(latent, noise, t)`. -/
  addNoise : Tensor → Tensor → ℕ → Tensor
  /-- Scheduler reverse step `step(noise_pred, t, latent)['prev_sample']`. -/
  schedStep : Tensor → ℕ → Tensor → Tensor
  /-- Scheduler `set_timesteps(n)` / `timesteps`: the reduced schedule. -/
  schedule : ℕ → List ℕ
  /-- `scheduler.alphas_cumprod`, indexed by full timestep. -/
  alphas : ℕ → ℚ
  /-- `torch.randn(shape)` (the draw the call happens to make). -/
  randn : List ℕ → Tensor
  /-- `torch.randn_like(x)` (the draw the call happens to make). -/
  randnLike : Tensor → Tensor
  /-- The value of `torch.randint(min_step, max_step + 1, [1])`. -/
  randTimestep : ℤ
  tokenize_len : ∀ s, (tokenize s).length = 77
  textEncodeRow_len : ∀ ts, (textEncodeRow ts).length = 77 * 768
  interpolate512_shape : ∀ x n c h w, x.shape = [n, c, h, w] →
    (interpolate512 x).shape = [n, c, 512, 512]
  vaeEnc_shape : ∀ x n h w, x.shape = [n, 3, h, w] →
    (vaeEnc x).shape = [n, 4, h / 8, w / 8]
  vaeDec_shape : ∀ x n h w, x.shape = [n, 4, h, w] →
    (vaeDec x).shape = [n, 3, 8 * h, 8 * w]
  unet_shape : ∀ x t e, (unet x t e).shape = x.shape
  addNoise_shape : ∀ x nz t, (addNoise x nz t).shape = x.shape
  schedStep_shape : ∀ p t l, (schedStep p t l).shape = l.shape
  schedule_len : ∀ n, (schedule n).length = n
  schedule_bound : ∀ n t, t ∈ schedule n → t ≤ 999
  randn_shape : ∀ s, (randn s).shape = s
  randnLike_shape : ∀ x, (randnLike x).shape = x.shape
  randTimestep_lb : 20 ≤ randTimestep
  randTimestep_ub : randTimestep ≤ 980

/-- The scheduler's mutable state: its current timestep schedule, written by
`scheduler.set_timesteps` (the only mutable shared attribute any modelled
method touches; the weights and `alphas` live read-only in `Env`). -/
structure SDState where
  schedTimesteps : List ℕ
deriving DecidableEq, Repr

/-- Batch tokenization as performed by the Hugging Face tokenizer call on
lines 67/73: its input validation rejects any non-string element with a
`ValueError` before any model forward pass; a list of strings (also the empty
list) is accepted and tokenized elementwise (§6 tokenizer contract). -/
def tokenizeBatch (env : Env) (prompts : List PromptItem) :
    Except Err (List (List ℕ)) :=
  if prompts.all PromptItem.isStr then
    .ok (prompts.map fun p => env.tokenize p.text)
  else
    .error .valueError

/-- Result of `get_text_embeddings`, together with how many text-encoder
forward passes were performed before returning. -/
structure EncodeOut where
  result : Except Err Tensor
  forwardPasses : ℕ
deriving Repr

/-- `StableDiffusion.get_text_embeddings` (lines 61–87).
Conditional prompts are tokenized (line 67) and encoded (line 70, forward
pass 1); the unconditional text `''` repeated `len(prompts)` times is
tokenized (line 73) and encoded (line 76, forward pass 2); line 78 asserts
all batch lengths agree; line 80 concatenates `[uncond; cond]`; lines 82–83
assert every unconditional row equals row 0 (evaluating
`uncond_embeddings[0]`, which raises `IndexError` on an empty batch);
line 85 asserts the output shape `(2P, 77, 768)`. -/
def get_text_embeddings (env : Env) (prompts : List PromptItem) : EncodeOut :=
  match tokenizeBatch env prompts with
  | .error e => ⟨.error e, 0⟩
  | .ok textTokens =>
    let textEmbeddings := stackRows (textTokens.map env.textEncodeRow) [77, 768]
    let uncondTokens := List.replicate prompts.length (env.tokenize "")
    let uncondEmbeddings :=
      stackRows (uncondTokens.map env.textEncodeRow) [77, 768]
    if uncondEmbeddings.batch = textEmbeddings.batch ∧
        textEmbeddings.batch = prompts.length ∧
        textTokens.length = prompts.length ∧
        uncondTokens.length = prompts.length then
      let outputEmbeddings := Tensor.cat2 uncondEmbeddings textEmbeddings
      if prompts.length = 0 then ⟨.error .indexError, 2⟩
      else if uncondEmbeddings =
          stackRows (List.replicate uncondEmbeddings.batch
            (uncondEmbeddings.row 0)) [77, 768] then
        if outputEmbeddings.shape = [2 * prompts.length, 77, 768] then
          ⟨.ok outputEmbeddings, 2⟩
        else ⟨.error .shapeMismatch, 2⟩
      else ⟨.error .shapeMismatch, 2⟩
    else ⟨.error .shapeMismatch, 2⟩

/-- `StableDiffusion.encode_imgs` (lines 191–202): assert rank 4 with 3
channels; rescale `[0,1] → [-1,1]`; VAE-encode and sample one latent; scale
by 0.18215; assert rank 4 with 4 channels. -/
def encode_imgs (env : Env) (imgs : Tensor) : Except Err Tensor :=
  if imgs.rank = 4 ∧ imgs.dim1 = 3 then
    let scaled := imgs.emap (fun x => 2 * x - 1)
    let latents := Tensor.smul (0.18215 : ℚ) (env.vaeEnc scaled)
    if latents.rank = 4 ∧ latents.dim1 = 4 then .ok latents
    else .error .shapeMismatch
  else .error .shapeMismatch

/-- `StableDiffusion.decode_latents` (lines 163–178): assert rank 4 with 4
channels; undo the 0.18215 scaling; VAE-decode; rescale `[-1,1] → [0,1]` and
clamp; assert rank 4 with 3 channels. -/
def decode_latents (env : Env) (latents : Tensor) : Except Err Tensor :=
  if latents.rank = 4 ∧ latents.dim1 = 4 then
    let unscaled := Tensor.smul (1 / (0.18215 : ℚ)) latents
    let imgs := (env.vaeDec unscaled).emap
      (fun x => min 1 (max 0 (x / 2 + 1 / 2)))
    if imgs.rank = 4 ∧ imgs.dim1 = 3 then .ok imgs
    else .error .shapeMismatch
  else .error .shapeMismatch

/-- `StableDiffusion.decode_latent` (lines 205–213): assert rank 3 with 4
leading channels; run the batched decode on `latent[None]`; take item `[0]`;
assert rank 3 with 3 leading channels. -/
def decode_latent (env : Env) (latent : Tensor) : Except Err Tensor :=
  if latent.rank = 3 ∧ latent.batch = 4 then
    match decode_latents env latent.unsqueeze with
    | .error e => .error e
    | .ok imgs =>
      let img := imgs.index0
      if img.rank = 3 ∧ img.batch = 3 then .ok img
      else .error .shapeMismatch
  else .error .shapeMismatch

/-- `StableDiffusion.encode_img` (lines 215–223): assert rank 3 with 3
leading channels; run the batched encode on `img[None]`; take item `[0]`;
assert rank 3 with 4 leading channels. -/
def encode_img (env : Env) (img : Tensor) : Except Err Tensor :=
  if img.rank = 3 ∧ img.batch = 3 then
    match encode_imgs env img.unsqueeze with
    | .error e => .error e
    | .ok latents =>
      let latent := latents.index0
      if latent.rank = 3 ∧ latent.batch = 4 then .ok latent
      else .error .shapeMismatch
  else .error .shapeMismatch

/-- Result of `train_step`: the returned value, the recorded `.backward`
invocations, and how many UNet evaluations ran inside / outside
`torch.no_grad()`. -/
structure TrainOut where
  result : Except Err ℤ
  backwardCalls : List BackwardCall
  unetNoGradCalls : ℕ
  unetGradCalls : ℕ
deriving Repr

/-- `StableDiffusion.train_step` (lines 89–123).
Line 94 resamples `pred_rgb` to 512×512; lines 96–97 default the timestep to
`randint(min_step, max_step + 1)` — a one-element tensor; line 99 asserts
`0 ≤ t < 1000` (precondition → `invalidInput`); line 102 encodes via the
differentiable VAE path; line 107 draws noise. Line 108 then evaluates
`self.scheduler.add_noise(latents, noise, t.cpu())`: when the caller
supplied the timestep explicitly it is a plain Python int (signature
`t:Optional[int]`) with no `.cpu` attribute, so the call raises
`AttributeError` there — before the UNet runs and before any backward pass.
Only when `t` was drawn on line 97 (a tensor) does `.cpu()` succeed; then
lines 108–111 (inside `torch.no_grad()`) forward-noise the latents,
duplicate to batch 2P and run the UNet once, lines 114–115 apply
classifier-free guidance, lines 118–119 form
`grad = (1 - alphas[t]) * (noise_pred - noise)`, line 122 calls
`latents.backward(gradient=grad, retain_graph=True)`, and line 123
returns 0. -/
def train_step (env : Env) (textEmbeddings : Tensor) (predRgb : Tensor)
    (guidanceScale : ℚ) (t? : Option ℤ) : TrainOut :=
  let predRgb512 := env.interpolate512 predRgb
  let t : ℤ := t?.getD env.randTimestep
  if 0 ≤ t ∧ t < 1000 then
    match encode_imgs env predRgb512 with
    | .error e => ⟨.error e, [], 0, 0⟩
    | .ok latents =>
      let noise := env.randnLike latents
      match t? with
      | some _ =>
        -- line 108: `t.cpu()` on the explicitly supplied plain int raises
        -- AttributeError; no UNet call, no backward, nothing returned.
        ⟨.error .attributeError, [], 0, 0⟩
      | none =>
        let latentsNoisy := env.addNoise latents noise t.toNat
        let latentModelInput := Tensor.cat2 latentsNoisy latentsNoisy
        let noisePred := env.unet latentModelInput t.toNat textEmbeddings
        let parts := noisePred.chunk2
        let guided := Tensor.zip2
          (fun u c => u + guidanceScale * (c - u)) parts.1 parts.2
        let w := 1 - env.alphas t.toNat
        let grad := Tensor.smul w (Tensor.sub guided noise)
        ⟨.ok 0, [⟨latents, grad, true⟩], 1, 0⟩
  else ⟨.error .invalidInput, [], 0, 0⟩

/-- Result of `produce_latents`: the scheduler state after the call, the
returned latent (or failure), and the number of UNet forward passes. -/
structure SampleOut where
  state : SDState
  result : Except Err Tensor
  unetCalls : ℕ
deriving Repr

/-- The denoising loop of `produce_latents` (lines 138–158), iterating the
scheduler's timestep list with index `i`; each iteration asserts the bounds
of `t` and `i` (lines 139–140), duplicates the latent to batch `2P`
(line 144), runs the UNet (line 148, counted), asserts the batch agreement
(line 149), asserts the prediction shape `(2P, 4, 64, 64)` (line 152),
applies classifier-free guidance (lines 153–154), asserts the guided shape
(line 155), and advances one scheduler step (lines 158–159). -/
def sampleLoop (env : Env) (textEmbeddings : Tensor) (numPrompts : ℕ)
    (guidanceScale : ℚ) (ts : List ℕ) (i : ℕ) (latents : Tensor)
    (calls : ℕ) : Except Err Tensor × ℕ :=
  match ts with
  | [] => (.ok latents, calls)
  | t :: rest =>
    if t ≤ 999 then
      if i ≤ 999 then
        let latentModelInput := Tensor.cat2 latents latents
        let noisePred := env.unet latentModelInput t textEmbeddings
        if latentModelInput.batch = textEmbeddings.batch ∧
            textEmbeddings.batch = noisePred.batch then
          if noisePred.shape = [2 * numPrompts, 4, 64, 64] then
            let parts := noisePred.chunk2
            let guided := Tensor.zip2
              (fun u c => u + guidanceScale * (c - u)) parts.1 parts.2
            if guided.shape = [1 * numPrompts, 4, 64, 64] then
              let latentsNext := env.schedStep guided t latents
              if latentsNext.shape = guided.shape ∧
                  guided.shape = [numPrompts, 4, 64, 64] then
                sampleLoop env textEmbeddings numPrompts guidanceScale rest
                  (i + 1) latentsNext (calls + 1)
              else (.error .shapeMismatch, calls + 1)
            else (.error .shapeMismatch, calls + 1)
          else (.error .shapeMismatch, calls + 1)
        else (.error .shapeMismatch, calls + 1)
      else (.error .invalidInput, calls)
    else (.error .invalidInput, calls)

/-- `StableDiffusion.produce_latents` (lines 125–161).
Lines 126–127 assert the embedding tensor is rank 3 of shape `(·, 77, 768)`
with an even batch; line 128 sets `P = batch / 2`; line 131 samples an
initial latent `(P, 4, height/8, width/8)` when none is given
(`unet.in_channels = 4`); line 133 asserts `0 ≤ num_inference_steps ≤ 1000`
(precondition → `invalidInput`); line 135 calls `scheduler.set_timesteps`
(writing the scheduler's shared state); lines 138–158 run the denoising
loop; line 161 returns the final latent. -/
def produce_latents (env : Env) (st : SDState) (textEmbeddings : Tensor)
    (height width : ℕ) (numInferenceSteps : ℤ) (guidanceScale : ℚ)
    (latents? : Option Tensor) : SampleOut :=
  if textEmbeddings.rank = 3 ∧ textEmbeddings.shape.drop 1 = [77, 768] then
    if textEmbeddings.batch % 2 = 0 then
      let numPrompts := textEmbeddings.batch / 2
      let latents := match latents? with
        | some l => l
        | none => env.randn [numPrompts, 4, height / 8, width / 8]
      if 0 ≤ numInferenceSteps ∧ numInferenceSteps ≤ 1000 then
        let st' : SDState := ⟨env.schedule numInferenceSteps.toNat⟩
        let out := sampleLoop env textEmbeddings numPrompts guidanceScale
          st'.schedTimesteps 0 latents 0
        ⟨st', out.1, out.2⟩
      else ⟨st, .error .invalidInput, 0⟩
    else ⟨st, .error .shapeMismatch, 0⟩
  else ⟨st, .error .shapeMismatch, 0⟩

/-- `StableDiffusion.embeddings_to_imgs` (lines 225–254).
Lines 232–234 repeat the embedding-shape asserts; line 237 samples latents;
line 243 asserts their shape; line 246 is `with torch.no_grad:` — the class
`torch.no_grad` is used as a context manager without being instantiated, so
entering the block raises `TypeError` unconditionally, before
`decode_latents` (line 247) or the numpy conversion (lines 251–252) can
run. -/
def embeddings_to_imgs (env : Env) (st : SDState) (textEmbeddings : Tensor)
    (height width : ℕ) (numInferenceSteps : ℤ) (guidanceScale : ℚ)
    (latents? : Option Tensor) : SampleOut :=
  if textEmbeddings.rank = 3 ∧ textEmbeddings.shape.drop 1 = [77, 768] then
    if textEmbeddings.batch % 2 = 0 then
      let numPrompts := textEmbeddings.batch / 2
      let s := produce_latents env st textEmbeddings height width
        numInferenceSteps guidanceScale latents?
      match s.result with
      | .error e => ⟨s.state, .error e, s.unetCalls⟩
      | .ok latents =>
        if latents.shape = [numPrompts, 4, 64, 64] then
          ⟨s.state, .error .typeError, s.unetCalls⟩
        else ⟨s.state, .error .shapeMismatch, s.unetCalls⟩
    else ⟨st, .error .shapeMismatch, 0⟩
  else ⟨st, .error .shapeMismatch, 0⟩

/-- `StableDiffusion.prompts_to_imgs` (lines 256–270): encode the prompts
(line 267), assert the embedding shape (line 268), and delegate to
`embeddings_to_imgs` (line 270). -/
def prompts_to_imgs (env : Env) (st : SDState) (prompts : List PromptItem)
    (height width : ℕ) (numInferenceSteps : ℤ) (guidanceScale : ℚ)
    (latents? : Option Tensor) : SampleOut :=
  match (get_text_embeddings env prompts).result with
  | .error e => ⟨st, .error e, 0⟩
  | .ok textEmbeddings =>
    if textEmbeddings.shape = [2 * prompts.length, 77, 768] then
      embeddings_to_imgs env st textEmbeddings height width
        numInferenceSteps guidanceScale latents?
    else ⟨st, .error .shapeMismatch, 0⟩

/-- Concrete interpolation collaborator used in witnesses. -/
def cInterp (x : Tensor) : Tensor :=
  match x.shape with
  | [n, c, _, _] => ⟨[n, c, 512, 512], List.replicate (n * c * 512 * 512) 0⟩
  | _ => x

/-- Concrete VAE encoder collaborator used in witnesses. -/
def cVaeEnc (x : Tensor) : Tensor :=
  match x.shape with
  | [n, _, h, w] =>
    ⟨[n, 4, h / 8, w / 8], List.replicate (n * 4 * (h / 8) * (w / 8)) 0⟩
  | _ => x

/-- Concrete VAE decoder collaborator used in witnesses. -/
def cVaeDec (x : Tensor) : Tensor :=
  match x.shape with
  | [n, _, h, w] =>
    ⟨[n, 3, 8 * h, 8 * w], List.replicate (n * 3 * (8 * h) * (8 * w)) 0⟩
  | _ => x

/-- A concrete environment whose collaborators satisfy every §6 contract;
used to instantiate witnesses and counterexamples. -/
def cEnv : Env where
  tokenize := fun _ => List.replicate 77 0
  textEncodeRow := fun _ => List.replicate (77 * 768) 0
  interpolate512 := cInterp
  vaeEnc := cVaeEnc
  vaeDec := cVaeDec
  unet := fun x _ _ => x
  addNoise := fun x _ _ => x
  schedStep := fun _ _ l => l
  schedule := fun n => List.replicate n 0
  alphas := fun _ => 1 / 2
  randn := fun s => ⟨s, List.replicate s.prod 0⟩
  randnLike := fun x => x
  randTimestep := 500
  tokenize_len := fun _ => List.length_replicate 77 0
  textEncodeRow_len := fun _ => List.length_replicate (77 * 768) 0
  interpolate512_shape := by
    intro x n c h w hx
    simp [cInterp, hx]
  vaeEnc_shape := by
    intro x n h w hx
    simp [cVaeEnc, hx]
  vaeDec_shape := by
    intro x n h w hx
    simp [cVaeDec, hx]
  unet_shape := fun _ _ _ => rfl
  addNoise_shape := fun _ _ _ => rfl
  schedStep_shape := fun _ _ _ => rfl
  schedule_len := fun n => List.length_replicate n 0
  schedule_bound := by
    intro n t ht
    have := List.eq_of_mem_replicate ht
    omega
  randn_shape := fun _ => rfl
  randnLike_shape := fun _ => rfl
  randTimestep_lb := by decide
  randTimestep_ub := by decide

/-- A valid embedding tensor for one prompt: shape `(2, 77, 768)`. -/
def embW : Tensor := ⟨[2, 77, 768], List.replicate (2 * 77 * 768) 0⟩

/-- A valid initial latent for one prompt: shape `(1, 4, 64, 64)`. -/
def latW : Tensor := ⟨[1, 4, 64, 64], List.replicate (1 * 4 * 64 * 64) 0⟩

/-- A latent whose batch size (2) disagrees with the prompt count 1. -/
def latBad : Tensor := ⟨[2, 4, 64, 64], List.replicate (2 * 4 * 64 * 64) 0⟩

/-- A differentiable rank-4 pixel tensor `(1, 3, 64, 64)`. -/
def rgbW : Tensor := ⟨[1, 3, 64, 64], List.replicate (1 * 3 * 64 * 64) 0⟩

/-- Slicing a flattened list of equal-length rows at row granularity
recovers the individual row. -/
lemma flatten_row_slice (rows : List (List ℚ)) (rs : ℕ)
    (h : ∀ r ∈ rows, r.length = rs) (i : ℕ) (hi : i < rows.length) :
    (rows.flatten.drop (i * rs)).take rs = rows.get ⟨i, hi⟩ := by
  induction rows generalizing i with
  | nil => simp at hi
  | cons r rest ih =>
    have hr : r.length = rs := h r (List.mem_cons_self r rest)
    cases i with
    | zero =>
      simp only [List.flatten_cons, Nat.zero_mul, List.drop_zero]
      rw [List.take_left' hr]
      rfl
    | succ i =>
      have h1 : (i + 1) * rs = r.length + i * rs := by rw [hr]; ring
      simp only [List.flatten_cons, h1]
      rw [← List.drop_drop, List.drop_left]
      have hrest : ∀ r' ∈ rest, r'.length = rs := by
        intro r' hr'
        exact h r' (List.mem_cons_of_mem r hr')
      rw [ih hrest i (by simpa using hi)]
      rfl

/-- Full characterization of `get_text_embeddings` on a non-empty list of
honest strings: both forward passes run, every assertion passes, and the
result is the unconditional block (one repeated row) concatenated with the
conditional block (one row per prompt, in order). -/
lemma gte_spec (env : Env) (ps : List String) (hne : ps ≠ []) :
    get_text_embeddings env (ps.map PromptItem.str) =
      ⟨.ok ⟨[ps.length + ps.length, 77, 768],
        (List.replicate ps.length
          (env.textEncodeRow (env.tokenize ""))).flatten ++
        (ps.map fun s => env.textEncodeRow (env.tokenize s)).flatten⟩, 2⟩ := by
  have hP : ps.length ≠ 0 := fun h => hne (List.length_eq_zero.mp h)
  have htok : tokenizeBatch env (ps.map PromptItem.str) =
      .ok (ps.map fun s => env.tokenize s) := by
    simp [tokenizeBatch, List.all_map, Function.comp, PromptItem.isStr,
      PromptItem.text, List.map_map]
  rw [get_text_embeddings, htok]
  simp only [stackRows, List.map_map, List.map_replicate, Function.comp,
    List.length_map, List.length_replicate, Tensor.batch, List.headD_cons,
    Tensor.cat2]
  rw [if_pos (by simp)]
  rw [if_neg hP]
  have hrow0 : (Tensor.mk
      (ps.length :: [77, 768])
      (List.replicate ps.length
        (env.textEncodeRow (env.tokenize ""))).flatten).row 0 =
      env.textEncodeRow (env.tokenize "") := by
    have hlen : ∀ r ∈ List.replicate ps.length
        (env.textEncodeRow (env.tokenize "")), r.length = 59136 := by
      intro r hr
      rw [List.eq_of_mem_replicate hr, env.textEncodeRow_len]
    have h0 : 0 < ps.length := Nat.pos_of_ne_zero hP
    have := flatten_row_slice _ 59136 hlen 0 (by simpa using h0)
    simp only [Tensor.row, Tensor.rowSize, Nat.zero_mul, List.drop_zero] at this ⊢
    have hprod : ([77, 768] : List ℕ).prod = 59136 := by norm_num
    rw [show (ps.length :: [77, 768] : List ℕ).tail = [77, 768] from rfl, hprod,
      this]
    simp
  rw [hrow0]
  rw [if_pos rfl]
  rw [if_pos (by simp [Nat.two_mul])]
  simp only [Function.comp_def]
  rfl

/-- The denoising loop succeeds and performs one UNet call per scheduled
timestep whenever the latent has the contract shape `(P, 4, 64, 64)` and the
embedding batch is `2P`; the final latent keeps that shape. -/
lemma sampleLoop_ok (env : Env) (emb : Tensor) (p : ℕ) (gs : ℚ) :
    ∀ (ts : List ℕ) (i : ℕ) (lat : Tensor) (c : ℕ),
      (∀ t ∈ ts, t ≤ 999) → i + ts.length ≤ 1000 →
      emb.batch = 2 * p → lat.shape = [p, 4, 64, 64] →
      ∃ out : Tensor,
        sampleLoop env emb p gs ts i lat c = (.ok out, c + ts.length) ∧
        out.shape = [p, 4, 64, 64] := by
  intro ts
  induction ts with
  | nil =>
    intro i lat c _ _ _ hlat
    exact ⟨lat, by simp [sampleLoop], hlat⟩
  | cons t rest ih =>
    intro i lat c hts hi hemb hlat
    have hbatch : lat.batch = p := by simp [Tensor.batch, hlat]
    have hlmi : (Tensor.cat2 lat lat).shape = (p + p) :: [4, 64, 64] := by
      simp [Tensor.cat2, hbatch, hlat]
    have hnp : (env.unet (Tensor.cat2 lat lat) t emb).shape =
        (p + p) :: [4, 64, 64] := (env.unet_shape _ _ _).trans hlmi
    have hlmiB : (Tensor.cat2 lat lat).batch = p + p := by
      rw [Tensor.batch, hlmi]
      rfl
    have hnpB : (env.unet (Tensor.cat2 lat lat) t emb).batch = p + p := by
      rw [Tensor.batch, hnp]
      rfl
    have hchunk : ((env.unet (Tensor.cat2 lat lat) t emb).chunk2).1.shape =
        p :: [4, 64, 64] := by
      show ((env.unet (Tensor.cat2 lat lat) t emb).batch / 2) ::
        (env.unet (Tensor.cat2 lat lat) t emb).shape.tail = _
      rw [hnpB, hnp]
      have h2 : (p + p) / 2 = p := by omega
      rw [h2]
      rfl
    have hguided : (Tensor.zip2 (fun u c => u + gs * (c - u))
        ((env.unet (Tensor.cat2 lat lat) t emb).chunk2).1
        ((env.unet (Tensor.cat2 lat lat) t emb).chunk2).2).shape =
        p :: [4, 64, 64] := hchunk
    simp only [sampleLoop]
    rw [if_pos (hts t (List.mem_cons_self t rest))]
    rw [if_pos (show i ≤ 999 by simp at hi; omega)]
    rw [if_pos ⟨hlmiB.trans (hemb.trans (Nat.two_mul p)).symm,
      hemb.trans ((hnpB.trans (Nat.two_mul p).symm).symm)⟩]
    rw [if_pos (by rw [hnp, Nat.two_mul])]
    rw [if_pos (by rw [hguided, Nat.one_mul])]
    have hnext : (env.schedStep (Tensor.zip2 (fun u c => u + gs * (c - u))
        ((env.unet (Tensor.cat2 lat lat) t emb).chunk2).1
        ((env.unet (Tensor.cat2 lat lat) t emb).chunk2).2) t lat).shape =
        [p, 4, 64, 64] := (env.schedStep_shape _ _ _).trans hlat
    rw [if_pos ⟨hnext.trans hguided.symm, hguided⟩]
    have hrest : ∀ u ∈ rest, u ≤ 999 := by
      intro u hu
      exact hts u (List.mem_cons_of_mem t hu)
    obtain ⟨out, heq, hsh⟩ := ih (i + 1) _ (c + 1) hrest
      (by simp at hi ⊢; omega) hemb hnext
    refine ⟨out, ?_, hsh⟩
    rw [heq]
    simp only [List.length_cons]
    congr 1
    omega

/-- `produce_latents` succeeds (scheduler state rewritten, one UNet call per
step, final latent of shape `(P, 4, 64, 64)`) whenever the embedding tensor
is valid, the step count lies in `[0, 1000]`, no initial latent is supplied,
and the requested resolution puts the latent grid at 64×64. -/
lemma produceLatents_ok (env : Env) (st : SDState) (emb : Tensor)
    (h w : ℕ) (gs : ℚ) (p : ℕ) (n : ℤ) (hsh : emb.shape = [2 * p, 77, 768])
    (h0 : 0 ≤ n) (h1 : n ≤ 1000) (hh : h / 8 = 64) (hw : w / 8 = 64) :
    ∃ out : Tensor,
      produce_latents env st emb h w n gs none =
        ⟨⟨env.schedule n.toNat⟩, .ok out, n.toNat⟩ ∧
      out.shape = [p, 4, 64, 64] := by
  have hB : emb.batch = 2 * p := by
    rw [Tensor.batch, hsh]
    rfl
  have hNP : emb.batch / 2 = p := by
    rw [hB]
    omega
  have hlat : (env.randn [emb.batch / 2, 4, h / 8, w / 8]).shape =
      [p, 4, 64, 64] := by
    rw [env.randn_shape, hNP, hh, hw]
  obtain ⟨out, heq, hshp⟩ := sampleLoop_ok env emb p gs
    (env.schedule n.toNat) 0 (env.randn [emb.batch / 2, 4, h / 8, w / 8]) 0
    (fun t ht => env.schedule_bound _ t ht)
    (by rw [Nat.zero_add, env.schedule_len]; omega) hB hlat
  refine ⟨out, ?_, hshp⟩
  simp only [produce_latents]
  rw [if_pos ⟨by simp [Tensor.rank, hsh], by rw [hsh]; rfl⟩]
  rw [if_pos (by rw [hB]; omega)]
  rw [if_pos ⟨h0, h1⟩]
  rw [hNP, hh, hw] at heq ⊢
  simp only [heq]
  rw [Nat.zero_add, env.schedule_len]

/-- C4: for every valid embedding tensor and initial latent of matching batch
size, `produce_latents` with `num_inference_steps = 0` (any guidance scale)
returns the initial latent unchanged and runs zero denoising steps. -/
theorem C4_sampler_zero_steps (env : Env) (st : SDState) (emb lat : Tensor)
    (h w : ℕ) (gs : ℚ) (p : ℕ) (hsh : emb.shape = [2 * p, 77, 768])
    (_hbatch : lat.batch = p) :
    (produce_latents env st emb h w 0 gs (some lat)).result = .ok lat ∧
    (produce_latents env st emb h w 0 gs (some lat)).unetCalls = 0 := by
  have hB : emb.batch = 2 * p := by
    rw [Tensor.batch, hsh]
    rfl
  have hsched : env.schedule (0 : ℤ).toNat = [] :=
    List.length_eq_zero.mp (env.schedule_len 0)
  simp only [produce_latents]
  rw [if_pos ⟨by simp [Tensor.rank, hsh], by rw [hsh]; rfl⟩]
  rw [if_pos (by rw [hB]; omega)]
  rw [if_pos ⟨le_refl (0 : ℤ), by norm_num⟩]
  rw [hsched]
  simp [sampleLoop]

/-- C4 witness: concrete instance of the zero-step boundary behavior. -/
theorem C4_sampler_zero_steps_witness :
    (produce_latents cEnv ⟨[]⟩ embW 512 512 0 1 (some latW)).result =
      .ok latW ∧
    (produce_latents cEnv ⟨[]⟩ embW 512 512 0 1 (some latW)).unetCalls = 0 :=
  C4_sampler_zero_steps cEnv ⟨[]⟩ embW latW 512 512 1 1 (by decide) (by decide)

/-- C5 counterexample: a supplied initial latent whose batch size (2)
disagrees with the prompt count (P = 1) is NOT rejected: with
`num_inference_steps = 0` the mismatched latent is returned unchanged, so no
`ShapeMismatch` failure occurs before (or instead of) denoising work. -/
theorem C5_sampler_validation_counterexample :
    (produce_latents cEnv ⟨[]⟩ embW 512 512 0 1 (some latBad)).result =
      .ok latBad := by
  rfl

/-- C5 amended: `produce_latents` rejects `num_inference_steps` outside
`[0, 1000]` with `InvalidInput` before any denoiser call; a batch-mismatched
initial latent is not checked eagerly — with at least one step the mismatch
is only caught by the in-loop batch assertion after the first denoiser
forward pass, and with zero steps it is returned unchanged. -/
theorem C5_sampler_validation (env : Env) (st : SDState) (emb : Tensor)
    (h w : ℕ) (gs : ℚ) (p : ℕ) (hsh : emb.shape = [2 * p, 77, 768]) :
    (∀ (n : ℤ), n < 0 ∨ 1000 < n → ∀ lat? : Option Tensor,
      produce_latents env st emb h w n gs lat? =
        ⟨st, .error .invalidInput, 0⟩) ∧
    (∀ (lat : Tensor) (q hh ww : ℕ) (n : ℤ), lat.shape = [q, 4, hh, ww] →
      q ≠ p → 1 ≤ n → n ≤ 1000 →
      (produce_latents env st emb h w n gs (some lat)).result =
        .error .shapeMismatch ∧
      (produce_latents env st emb h w n gs (some lat)).unetCalls = 1) ∧
    (∀ lat : Tensor,
      (produce_latents env st emb h w 0 gs (some lat)).result = .ok lat) := by
  have hB : emb.batch = 2 * p := by
    rw [Tensor.batch, hsh]
    rfl
  refine ⟨?_, ?_, ?_⟩
  · intro n hn lat?
    simp only [produce_latents]
    rw [if_pos ⟨by simp [Tensor.rank, hsh], by rw [hsh]; rfl⟩]
    rw [if_pos (by rw [hB]; omega)]
    rw [if_neg (by omega)]
  · intro lat q hh ww n hlat hq h1 h2
    have hlatB : lat.batch = q := by
      rw [Tensor.batch, hlat]
      rfl
    have hlen : (env.schedule n.toNat).length = n.toNat := env.schedule_len _
    have hne : env.schedule n.toNat ≠ [] := by
      intro hnil
      rw [hnil] at hlen
      simp at hlen
      omega
    obtain ⟨t, rest, hts⟩ := List.exists_cons_of_ne_nil hne
    have htb : t ≤ 999 := env.schedule_bound n.toNat t (by rw [hts]; exact List.mem_cons_self t rest)
    have hcond : ¬((Tensor.cat2 lat lat).batch = emb.batch ∧
        emb.batch = (env.unet (Tensor.cat2 lat lat) t emb).batch) := by
      intro hc
      have hcatB : (Tensor.cat2 lat lat).batch = q + q := by
        simp [Tensor.cat2, Tensor.batch, hlat]
      rw [hcatB, hB] at hc
      omega
    simp only [produce_latents]
    rw [if_pos ⟨by simp [Tensor.rank, hsh], by rw [hsh]; rfl⟩]
    rw [if_pos (by rw [hB]; omega)]
    rw [if_pos ⟨by omega, h2⟩]
    rw [hts]
    simp only [sampleLoop]
    rw [if_pos htb]
    rw [if_pos (by omega)]
    rw [if_neg hcond]
    exact ⟨rfl, rfl⟩
  · intro lat
    have hsched : env.schedule (0 : ℤ).toNat = [] :=
      List.length_eq_zero.mp (env.schedule_len 0)
    simp only [produce_latents]
    rw [if_pos ⟨by simp [Tensor.rank, hsh], by rw [hsh]; rfl⟩]
    rw [if_pos (by rw [hB]; omega)]
    rw [if_pos ⟨le_refl (0 : ℤ), by norm_num⟩]
    rw [hsched]
    simp [sampleLoop]

/-- C5 witness: the three validation behaviors at concrete inputs. -/
theorem C5_sampler_validation_witness :
    (produce_latents cEnv ⟨[]⟩ embW 512 512 (-1) 1 (some latW)) =
      ⟨⟨[]⟩, .error .invalidInput, 0⟩ ∧
    (produce_latents cEnv ⟨[]⟩ embW 512 512 1 1 (some latBad)).result =
      .error .shapeMismatch ∧
    (produce_latents cEnv ⟨[]⟩ embW 512 512 0 1 (some latW)).result =
      .ok latW := by
  refine ⟨?_, ?_, ?_⟩
  · exact (C5_sampler_validation cEnv ⟨[]⟩ embW 512 512 1 1 (by decide)).1
      (-1) (by omega) (some latW)
  · exact ((C5_sampler_validation cEnv ⟨[]⟩ embW 512 512 1 1
      (by decide)).2.1 latBad 2 64 64 1 (by decide) (by decide)
      (by omega) (by omega)).1
  · exact (C5_sampler_validation cEnv ⟨[]⟩ embW 512 512 1 1
      (by decide)).2.2 latW

/-- C8 counterexample: `produce_latents` writes the scheduler's shared state:
starting from a scheduler whose timestep list is `[5]`, one call with
`num_inference_steps = 1` leaves the scheduler in a different state, so the
scheduler is mutable shared state written by a public operation. -/
theorem C8_read_only_state_counterexample :
    (produce_latents cEnv ⟨[5]⟩ embW 512 512 1 1 none).state ≠ ⟨[5]⟩ := by
  decide

/-- C8 amended: every `produce_latents` call that reaches line 135 overwrites
the scheduler's timestep schedule via `set_timesteps` (the scheduler is
shared mutable state written during sampling); the model weights and the
cumulative-alphas array stay read-only, living in the immutable
environment. -/
theorem C8_read_only_state (env : Env) (st : SDState) (emb : Tensor)
    (h w : ℕ) (gs : ℚ) (lat? : Option Tensor) (p : ℕ) (n : ℤ)
    (hsh : emb.shape = [2 * p, 77, 768]) (h0 : 0 ≤ n) (h1 : n ≤ 1000) :
    (produce_latents env st emb h w n gs lat?).state =
      ⟨env.schedule n.toNat⟩ := by
  have hB : emb.batch = 2 * p := by
    rw [Tensor.batch, hsh]
    rfl
  simp only [produce_latents]
  rw [if_pos ⟨by simp [Tensor.rank, hsh], by rw [hsh]; rfl⟩]
  rw [if_pos (by rw [hB]; omega)]
  rw [if_pos ⟨h0, h1⟩]

/-- C8 witness: the scheduler state after a concrete call is exactly the
freshly produced schedule. -/
theorem C8_read_only_state_witness :
    (produce_latents cEnv ⟨[5]⟩ embW 512 512 1 1 none).state =
      ⟨cEnv.schedule (1 : ℤ).toNat⟩ :=
  C8_read_only_state cEnv ⟨[5]⟩ embW 512 512 1 none 1 1 (by decide)
    (by omega) (by omega)

/-- C10 counterexample: the denoising loop succeeds at height = width = 516
(since 516 / 8 = 64), refuting the claim that sampling succeeds only when
height = width = 512. -/
theorem C10_resolution_counterexample :
    (produce_latents cEnv ⟨[]⟩ embW 516 516 1 (7.5 : ℚ) none).result.isOk =
      true := by
  obtain ⟨out, heq, _⟩ := produceLatents_ok cEnv ⟨[]⟩ embW 516 516 (7.5 : ℚ)
    1 1 (by decide) (by omega) (by omega) (by decide) (by decide)
  rw [heq]
  rfl

/-- C10 amended: with at least one inference step and a freshly sampled
initial latent, the in-loop assertion that the noise prediction has shape
`(2P, 4, 64, 64)` makes sampling succeed only when `height / 8 = 64` and
`width / 8 = 64` (e.g. height = width = 512); any resolution whose latent
grid is not 64×64 aborts with a shape-assertion failure right after the
first denoiser call. -/
theorem C10_resolution_constraint (env : Env) (st : SDState) (emb : Tensor)
    (h w : ℕ) (gs : ℚ) (p : ℕ) (n : ℤ) (hsh : emb.shape = [2 * p, 77, 768])
    (h1 : 1 ≤ n) (h2 : n ≤ 1000) (hres : h / 8 ≠ 64 ∨ w / 8 ≠ 64) :
    (produce_latents env st emb h w n gs none).result =
      .error .shapeMismatch ∧
    (produce_latents env st emb h w n gs none).unetCalls = 1 := by
  have hB : emb.batch = 2 * p := by
    rw [Tensor.batch, hsh]
    rfl
  have hNP : emb.batch / 2 = p := by
    rw [hB]
    omega
  have hlen : (env.schedule n.toNat).length = n.toNat := env.schedule_len _
  have hne : env.schedule n.toNat ≠ [] := by
    intro hnil
    rw [hnil] at hlen
    simp at hlen
    omega
  obtain ⟨t, rest, hts⟩ := List.exists_cons_of_ne_nil hne
  have htb : t ≤ 999 := env.schedule_bound n.toNat t
    (by rw [hts]; exact List.mem_cons_self t rest)
  have hlat : (env.randn [emb.batch / 2, 4, h / 8, w / 8]).shape =
      [p, 4, h / 8, w / 8] := by
    rw [env.randn_shape, hNP]
  have hlatB : (env.randn [emb.batch / 2, 4, h / 8, w / 8]).batch = p := by
    rw [Tensor.batch, hlat]
    rfl
  have hcatS : (Tensor.cat2 (env.randn [emb.batch / 2, 4, h / 8, w / 8])
      (env.randn [emb.batch / 2, 4, h / 8, w / 8])).shape =
      (p + p) :: [4, h / 8, w / 8] := by
    simp [Tensor.cat2, hlatB, hlat]
  have hnpS : (env.unet (Tensor.cat2
      (env.randn [emb.batch / 2, 4, h / 8, w / 8])
      (env.randn [emb.batch / 2, 4, h / 8, w / 8])) t emb).shape =
      (p + p) :: [4, h / 8, w / 8] := (env.unet_shape _ _ _).trans hcatS
  have hcond1 : (Tensor.cat2 (env.randn [emb.batch / 2, 4, h / 8, w / 8])
      (env.randn [emb.batch / 2, 4, h / 8, w / 8])).batch = emb.batch ∧
      emb.batch = (env.unet (Tensor.cat2
        (env.randn [emb.batch / 2, 4, h / 8, w / 8])
        (env.randn [emb.batch / 2, 4, h / 8, w / 8])) t emb).batch := by
    have hcB : (Tensor.cat2 (env.randn [emb.batch / 2, 4, h / 8, w / 8])
        (env.randn [emb.batch / 2, 4, h / 8, w / 8])).batch = p + p := by
      rw [Tensor.batch, hcatS]
      rfl
    have huB : (env.unet (Tensor.cat2
        (env.randn [emb.batch / 2, 4, h / 8, w / 8])
        (env.randn [emb.batch / 2, 4, h / 8, w / 8])) t emb).batch =
        p + p := by
      rw [Tensor.batch, hnpS]
      rfl
    constructor
    · rw [hcB, hB]
      omega
    · rw [huB, hB]
      omega
  have hcond2 : ¬((env.unet (Tensor.cat2
      (env.randn [emb.batch / 2, 4, h / 8, w / 8])
      (env.randn [emb.batch / 2, 4, h / 8, w / 8])) t emb).shape =
      [2 * (emb.batch / 2), 4, 64, 64]) := by
    rw [hnpS, hNP]
    intro hc
    simp only [List.cons.injEq, and_true] at hc
    rcases hres with hres | hres
    · exact hres hc.2.2.1
    · exact hres hc.2.2.2
  simp only [produce_latents]
  rw [if_pos ⟨by simp [Tensor.rank, hsh], by rw [hsh]; rfl⟩]
  rw [if_pos (by rw [hB]; omega)]
  rw [if_pos ⟨by omega, h2⟩]
  rw [hts]
  simp only [sampleLoop]
  rw [if_pos htb]
  rw [if_pos (by omega)]
  rw [if_pos hcond1]
  rw [if_neg hcond2]
  exact ⟨rfl, rfl⟩

/-- C10 witness: a concrete non-64×64 latent grid (height = width = 256)
aborts after exactly one denoiser call. -/
theorem C10_resolution_constraint_witness :
    (produce_latents cEnv ⟨[]⟩ embW 256 256 1 1 none).result =
      .error .shapeMismatch ∧
    (produce_latents cEnv ⟨[]⟩ embW 256 256 1 1 none).unetCalls = 1 :=
  C10_resolution_constraint cEnv ⟨[]⟩ embW 256 256 1 1 1 (by decide)
    (by omega) (by omega) (Or.inl (by decide))

/-- C2: for every non-empty prompt list of length P, `get_text_embeddings`
returns a tensor of shape `(2P, 77, 768)` whose first P rows all equal the
single unconditional embedding row (hence are pairwise identical) and whose
last P rows are the conditional embeddings in exactly the input prompt
order. -/
theorem C2_embedding_layout (env : Env) (ps : List String) (hne : ps ≠ []) :
    ∃ E : Tensor,
      (get_text_embeddings env (ps.map PromptItem.str)).result = .ok E ∧
      E.shape = [2 * ps.length, 77, 768] ∧
      (∀ i, i < ps.length →
        E.row i = env.textEncodeRow (env.tokenize "")) ∧
      (∀ i (hi : i < ps.length),
        E.row (ps.length + i) =
          env.textEncodeRow (env.tokenize (ps.get ⟨i, hi⟩))) := by
  have hspec := gte_spec env ps hne
  have hlens : ∀ x ∈
      List.replicate ps.length (env.textEncodeRow (env.tokenize "")) ++
      (ps.map fun s => env.textEncodeRow (env.tokenize s)),
      x.length = 59136 := by
    intro x hx
    rcases List.mem_append.mp hx with hx | hx
    · rw [List.eq_of_mem_replicate hx, env.textEncodeRow_len]
    · obtain ⟨s, _, rfl⟩ := List.mem_map.mp hx
      rw [env.textEncodeRow_len]
  refine ⟨⟨[ps.length + ps.length, 77, 768],
    (List.replicate ps.length (env.textEncodeRow (env.tokenize ""))).flatten ++
    (ps.map fun s => env.textEncodeRow (env.tokenize s)).flatten⟩,
    ?_, ?_, ?_, ?_⟩
  · rw [hspec]
  · simp [Nat.two_mul]
  · intro i hi
    have hrow := flatten_row_slice _ 59136 hlens i (by simp; omega)
    simp only [Tensor.row, Tensor.rowSize, List.tail_cons]
    rw [show ([77, 768] : List ℕ).prod = 59136 by norm_num]
    rw [← List.flatten_append, hrow, List.get_eq_getElem]
    rw [List.getElem_append_left (by simp; omega)]
    exact List.getElem_replicate ..
  · intro i hi
    have hrow := flatten_row_slice _ 59136 hlens (ps.length + i)
      (by simp; omega)
    simp only [Tensor.row, Tensor.rowSize, List.tail_cons]
    rw [show ([77, 768] : List ℕ).prod = 59136 by norm_num]
    rw [← List.flatten_append, hrow, List.get_eq_getElem]
    rw [List.getElem_append_right (by simp)]
    simp [List.getElem_map, List.get_eq_getElem]

/-- C2 witness: layout of the embeddings for the single prompt list
`["a"]`. -/
theorem C2_embedding_layout_witness :
    ∃ E : Tensor,
      (get_text_embeddings cEnv (["a"].map PromptItem.str)).result = .ok E ∧
      E.shape = [2 * (["a"] : List String).length, 77, 768] ∧
      (∀ i, i < (["a"] : List String).length →
        E.row i = cEnv.textEncodeRow (cEnv.tokenize "")) ∧
      (∀ i (hi : i < (["a"] : List String).length),
        E.row ((["a"] : List String).length + i) =
          cEnv.textEncodeRow (cEnv.tokenize ((["a"] : List String).get
            ⟨i, hi⟩))) :=
  C2_embedding_layout cEnv ["a"] (by simp)

/-- Helper for `train_step`: the line-102 VAE encode of the 512×512
resampled image succeeds, producing the scaled latent sample. -/
lemma encode_imgs_interpolated (env : Env) (rgb : Tensor) (n h w : ℕ)
    (hsh : rgb.shape = [n, 3, h, w]) :
    encode_imgs env (env.interpolate512 rgb) =
      .ok (Tensor.smul (0.18215 : ℚ) (env.vaeEnc
        ((env.interpolate512 rgb).emap fun x => 2 * x - 1))) := by
  have hint : (env.interpolate512 rgb).shape = [n, 3, 512, 512] :=
    env.interpolate512_shape rgb n 3 h w hsh
  have hmap : ((env.interpolate512 rgb).emap fun x => 2 * x - 1).shape =
      [n, 3, 512, 512] := hint
  have hvenc : (env.vaeEnc
      ((env.interpolate512 rgb).emap fun x => 2 * x - 1)).shape =
      [n, 4, 64, 64] := by
    rw [env.vaeEnc_shape _ n 512 512 hmap]
  have hr1 : (env.interpolate512 rgb).rank = 4 := by
    rw [Tensor.rank, hint]
    rfl
  have hr2 : (env.interpolate512 rgb).dim1 = 3 := by
    rw [Tensor.dim1, hint]
    rfl
  have hr3 : (Tensor.smul (0.18215 : ℚ) (env.vaeEnc
      ((env.interpolate512 rgb).emap fun x => 2 * x - 1))).rank = 4 := by
    rw [Tensor.rank]
    show (env.vaeEnc ((env.interpolate512 rgb).emap
      fun x => 2 * x - 1)).shape.length = 4
    rw [hvenc]
    rfl
  have hr4 : (Tensor.smul (0.18215 : ℚ) (env.vaeEnc
      ((env.interpolate512 rgb).emap fun x => 2 * x - 1))).dim1 = 4 := by
    rw [Tensor.dim1]
    show (env.vaeEnc ((env.interpolate512 rgb).emap
      fun x => 2 * x - 1)).shape.tail.headD 0 = 4
    rw [hvenc]
    rfl
  rw [encode_imgs]
  rw [if_pos ⟨hr1, hr2⟩]
  rw [if_pos ⟨hr3, hr4⟩]

/-- Helper for `train_step` with `t=None`: the timestep is the `randint`
tensor (valid by construction), `.cpu()` succeeds, and the full
score-distillation effect record is produced. -/
lemma train_step_none_spec (env : Env) (emb rgb : Tensor) (gs : ℚ)
    (n h w : ℕ) (hsh : rgb.shape = [n, 3, h, w]) :
    let t : ℤ := env.randTimestep
    let latents := Tensor.smul (0.18215 : ℚ)
      (env.vaeEnc ((env.interpolate512 rgb).emap fun x => 2 * x - 1))
    let noise := env.randnLike latents
    let latentsNoisy := env.addNoise latents noise t.toNat
    let noisePred := env.unet (Tensor.cat2 latentsNoisy latentsNoisy)
      t.toNat emb
    let guided := Tensor.zip2 (fun u c => u + gs * (c - u))
      noisePred.chunk2.1 noisePred.chunk2.2
    let grad := Tensor.smul (1 - env.alphas t.toNat)
      (Tensor.sub guided noise)
    train_step env emb rgb gs none =
      ⟨.ok 0, [⟨latents, grad, true⟩], 1, 0⟩ := by
  intro t latents noise latentsNoisy noisePred guided grad
  have henc := encode_imgs_interpolated env rgb n h w hsh
  have ht0 : (0 : ℤ) ≤ env.randTimestep := by
    have := env.randTimestep_lb
    omega
  have ht1 : env.randTimestep < 1000 := by
    have := env.randTimestep_ub
    omega
  simp only [train_step, Option.getD_none]
  rw [if_pos ⟨ht0, ht1⟩]
  rw [henc]

/-- Helper for `train_step` with an explicitly supplied valid timestep: the
plain int reaches line 108, `t.cpu()` raises `AttributeError`, and no UNet
call, backward pass or return value is produced. -/
lemma train_step_some_crash (env : Env) (emb rgb : Tensor) (gs : ℚ)
    (t : ℤ) (n h w : ℕ) (hsh : rgb.shape = [n, 3, h, w])
    (ht0 : 0 ≤ t) (ht1 : t < 1000) :
    train_step env emb rgb gs (some t) =
      ⟨.error .attributeError, [], 0, 0⟩ := by
  have henc := encode_imgs_interpolated env rgb n h w hsh
  simp only [train_step, Option.getD_some]
  rw [if_pos ⟨ht0, ht1⟩]
  rw [henc]

/-- C1: the claimed score-distillation behavior holds only on the
random-timestep branch. With `t=None` the injected gradient is
`(1 - alphas[t]) * (guided - noise)`, `guided = uncond + scale *
(cond - uncond)`, passed as the upstream gradient of exactly one backward
call rooted at the VAE-encode latents with the graph retained, the single
denoiser evaluation under `no_grad`, and 0 returned. But for an explicitly
supplied valid timestep — here 500, the spec's own fixed-timestep
scenario — `t` is a plain int, so line 108 (`t.cpu()`) raises
`AttributeError` after the VAE encode: no denoiser call, no backward pass,
no returned 0, refuting the claim for every call with a supplied
timestep. -/
theorem C1_distillation_gradient (env : Env) (emb : Tensor) (gs : ℚ) :
    (let t : ℤ := env.randTimestep
     let latents := Tensor.smul (0.18215 : ℚ)
       (env.vaeEnc ((env.interpolate512 rgbW).emap fun x => 2 * x - 1))
     let noise := env.randnLike latents
     let latentsNoisy := env.addNoise latents noise t.toNat
     let noisePred := env.unet (Tensor.cat2 latentsNoisy latentsNoisy)
       t.toNat emb
     let guided := Tensor.zip2 (fun u c => u + gs * (c - u))
       noisePred.chunk2.1 noisePred.chunk2.2
     let grad := Tensor.smul (1 - env.alphas t.toNat)
       (Tensor.sub guided noise)
     train_step env emb rgbW gs none =
       ⟨.ok 0, [⟨latents, grad, true⟩], 1, 0⟩) ∧
    train_step env emb rgbW gs (some 500) =
      ⟨.error .attributeError, [], 0, 0⟩ :=
  ⟨train_step_none_spec env emb rgbW gs 1 64 64 rfl,
   train_step_some_crash env emb rgbW gs 500 1 64 64 rfl (by omega)
     (by omega)⟩

/-- C6: `train_step` with an explicitly supplied out-of-range timestep fails
with `InvalidInput` at the line-99 assertion: no backward pass is recorded,
no gradient is deposited, and the denoiser is never invoked. -/
theorem C6_invalid_timestep (env : Env) (emb rgb : Tensor) (gs : ℚ) (t : ℤ)
    (ht : t < 0 ∨ 1000 ≤ t) :
    train_step env emb rgb gs (some t) =
      ⟨.error .invalidInput, [], 0, 0⟩ := by
  simp only [train_step]
  rw [if_neg (by simp only [Option.getD_some]; omega)]

/-- C6 witness: the boundary timestep `num_train_timesteps = 1000` is
rejected with no backward call and no denoiser call. -/
theorem C6_invalid_timestep_witness :
    train_step cEnv embW rgbW 100 (some 1000) =
      ⟨.error .invalidInput, [], 0, 0⟩ :=
  C6_invalid_timestep cEnv embW rgbW 100 1000 (Or.inr (by omega))

/-- C9: the single-item codec variants equal the batched operations wrapped
with a singleton batch dimension — `encode_img img = encode_imgs img[None]`
then `[0]`, and `decode_latent l = decode_latents l[None]` then `[0]` — and
they preserve rank-3 shape with 4 (respectively 3) leading channels. -/
theorem C9_single_item_codec (env : Env) (img lat : Tensor)
    (h w h2 w2 : ℕ) (himg : img.shape = [3, h, w])
    (hlat : lat.shape = [4, h2, w2]) :
    encode_img env img =
      (encode_imgs env img.unsqueeze).map Tensor.index0 ∧
    decode_latent env lat =
      (decode_latents env lat.unsqueeze).map Tensor.index0 ∧
    (∀ x, encode_img env img = .ok x → x.shape = [4, h / 8, w / 8]) ∧
    (∀ y, decode_latent env lat = .ok y →
      y.shape = [3, 8 * h2, 8 * w2]) := by
  have hU : img.unsqueeze.shape = [1, 3, h, w] := by
    show 1 :: img.shape = _
    rw [himg]
  have hvE : (env.vaeEnc (Tensor.emap (fun x => 2 * x - 1)
      img.unsqueeze)).shape = [1, 4, h / 8, w / 8] :=
    env.vaeEnc_shape _ 1 h w hU
  have hE : (Tensor.smul (0.18215 : ℚ) (env.vaeEnc
      (Tensor.emap (fun x => 2 * x - 1) img.unsqueeze))).shape =
      [1, 4, h / 8, w / 8] := hvE
  have hencB : encode_imgs env img.unsqueeze =
      .ok (Tensor.smul (0.18215 : ℚ) (env.vaeEnc
        (Tensor.emap (fun x => 2 * x - 1) img.unsqueeze))) := by
    rw [encode_imgs]
    rw [if_pos ⟨by rw [Tensor.rank, hU]; rfl, by rw [Tensor.dim1, hU]; rfl⟩]
    rw [if_pos ⟨by rw [Tensor.rank, hE]; rfl, by rw [Tensor.dim1, hE]; rfl⟩]
  have hidx : (Tensor.index0 (Tensor.smul (0.18215 : ℚ) (env.vaeEnc
      (Tensor.emap (fun x => 2 * x - 1) img.unsqueeze)))).shape =
      [4, h / 8, w / 8] := by
    show (Tensor.smul (0.18215 : ℚ) (env.vaeEnc
      (Tensor.emap (fun x => 2 * x - 1) img.unsqueeze))).shape.tail = _
    rw [hE]
    rfl
  have hLHS : encode_img env img =
      .ok (Tensor.index0 (Tensor.smul (0.18215 : ℚ) (env.vaeEnc
        (Tensor.emap (fun x => 2 * x - 1) img.unsqueeze)))) := by
    rw [encode_img]
    rw [if_pos ⟨by rw [Tensor.rank, himg]; rfl,
      by rw [Tensor.batch, himg]; rfl⟩]
    simp only [hencB]
    rw [if_pos ⟨by rw [Tensor.rank, hidx]; rfl,
      by rw [Tensor.batch, hidx]; rfl⟩]
  have hUL : lat.unsqueeze.shape = [1, 4, h2, w2] := by
    show 1 :: lat.shape = _
    rw [hlat]
  have hvD : (env.vaeDec (Tensor.smul (1 / (0.18215 : ℚ))
      lat.unsqueeze)).shape = [1, 3, 8 * h2, 8 * w2] :=
    env.vaeDec_shape _ 1 h2 w2 hUL
  have hD : (Tensor.emap (fun x => min 1 (max 0 (x / 2 + 1 / 2)))
      (env.vaeDec (Tensor.smul (1 / (0.18215 : ℚ))
        lat.unsqueeze))).shape = [1, 3, 8 * h2, 8 * w2] := hvD
  have hdecB : decode_latents env lat.unsqueeze =
      .ok (Tensor.emap (fun x => min 1 (max 0 (x / 2 + 1 / 2)))
        (env.vaeDec (Tensor.smul (1 / (0.18215 : ℚ))
          lat.unsqueeze))) := by
    rw [decode_latents]
    rw [if_pos ⟨by rw [Tensor.rank, hUL]; rfl,
      by rw [Tensor.dim1, hUL]; rfl⟩]
    rw [if_pos ⟨by rw [Tensor.rank, hD]; rfl, by rw [Tensor.dim1, hD]; rfl⟩]
  have hidxD : (Tensor.index0 (Tensor.emap
      (fun x => min 1 (max 0 (x / 2 + 1 / 2)))
      (env.vaeDec (Tensor.smul (1 / (0.18215 : ℚ))
        lat.unsqueeze)))).shape = [3, 8 * h2, 8 * w2] := by
    show (Tensor.emap (fun x => min 1 (max 0 (x / 2 + 1 / 2)))
      (env.vaeDec (Tensor.smul (1 / (0.18215 : ℚ))
        lat.unsqueeze))).shape.tail = _
    rw [hD]
    rfl
  have hLHSD : decode_latent env lat =
      .ok (Tensor.index0 (Tensor.emap
        (fun x => min 1 (max 0 (x / 2 + 1 / 2)))
        (env.vaeDec (Tensor.smul (1 / (0.18215 : ℚ))
          lat.unsqueeze)))) := by
    rw [decode_latent]
    rw [if_pos ⟨by rw [Tensor.rank, hlat]; rfl,
      by rw [Tensor.batch, hlat]; rfl⟩]
    simp only [hdecB]
    rw [if_pos ⟨by rw [Tensor.rank, hidxD]; rfl,
      by rw [Tensor.batch, hidxD]; rfl⟩]
  refine ⟨?_, ?_, ?_, ?_⟩
  · rw [hLHS, hencB]
    rfl
  · rw [hLHSD, hdecB]
    rfl
  · intro x hx
    rw [hLHS] at hx
    cases hx
    exact hidx
  · intro y hy
    rw [hLHSD] at hy
    cases hy
    exact hidxD

/-- C9 witness: the single-item and batched codec paths agree at a concrete
unbatched 3×8×8 image and 4×8×8 latent. -/
theorem C9_single_item_codec_witness :
    encode_img cEnv ⟨[3, 8, 8], List.replicate (3 * 8 * 8) 0⟩ =
      (encode_imgs cEnv
        (Tensor.unsqueeze ⟨[3, 8, 8], List.replicate (3 * 8 * 8) 0⟩)).map
        Tensor.index0 ∧
    decode_latent cEnv ⟨[4, 8, 8], List.replicate (4 * 8 * 8) 0⟩ =
      (decode_latents cEnv
        (Tensor.unsqueeze ⟨[4, 8, 8], List.replicate (4 * 8 * 8) 0⟩)).map
        Tensor.index0 ∧
    (∀ x, encode_img cEnv ⟨[3, 8, 8], List.replicate (3 * 8 * 8) 0⟩ =
      .ok x → x.shape = [4, 8 / 8, 8 / 8]) ∧
    (∀ y, decode_latent cEnv ⟨[4, 8, 8], List.replicate (4 * 8 * 8) 0⟩ =
      .ok y → y.shape = [3, 8 * 8, 8 * 8]) :=
  C9_single_item_codec cEnv ⟨[3, 8, 8], List.replicate (3 * 8 * 8) 0⟩
    ⟨[4, 8, 8], List.replicate (4 * 8 * 8) 0⟩ 8 8 8 8 (by decide) (by decide)

/-- Whenever sampling succeeds (valid embeddings, step count in `[0, 1000]`,
64×64 latent grid, no supplied latent), `embeddings_to_imgs` reaches line 246
and fails with the `TypeError` raised by `with torch.no_grad:`. -/
lemma embeddings_to_imgs_no_grad_crash (env : Env) (st : SDState)
    (emb : Tensor) (h w : ℕ) (gs : ℚ) (p : ℕ) (n : ℤ)
    (hsh : emb.shape = [2 * p, 77, 768]) (h0 : 0 ≤ n) (h1 : n ≤ 1000)
    (hh : h / 8 = 64) (hw : w / 8 = 64) :
    (embeddings_to_imgs env st emb h w n gs none).result =
      .error .typeError := by
  obtain ⟨out, heq, hout⟩ := produceLatents_ok env st emb h w gs p n hsh
    h0 h1 hh hw
  have hB : emb.batch = 2 * p := by
    rw [Tensor.batch, hsh]
    rfl
  have hNP : emb.batch / 2 = p := by
    rw [hB]
    omega
  simp only [embeddings_to_imgs]
  rw [if_pos ⟨by simp [Tensor.rank, hsh], by rw [hsh]; rfl⟩]
  rw [if_pos (by rw [hB]; omega)]
  simp only [heq]
  rw [if_pos (by rw [hout, hNP])]

/-- When the embedding step succeeds with a tensor of the asserted shape,
`prompts_to_imgs` reduces to `embeddings_to_imgs` on that tensor. -/
lemma prompts_to_imgs_ok (env : Env) (st : SDState) (ps : List PromptItem)
    (h w : ℕ) (n : ℤ) (gs : ℚ) (lat? : Option Tensor) (E : Tensor) (k : ℕ)
    (hE : get_text_embeddings env ps = ⟨.ok E, k⟩)
    (hsh : E.shape = [2 * ps.length, 77, 768]) :
    prompts_to_imgs env st ps h w n gs lat? =
      embeddings_to_imgs env st E h w n gs lat? := by
  rw [prompts_to_imgs, hE]
  show (if E.shape = [2 * ps.length, 77, 768] then
      embeddings_to_imgs env st E h w n gs lat?
    else ⟨st, .error .shapeMismatch, 0⟩) =
    embeddings_to_imgs env st E h w n gs lat?
  rw [if_pos hsh]

/-- C3: the end-to-end scenario prompts = ["a red apple"],
height = width = 512, num_inference_steps = 1, guidance_scale = 7.5 does NOT
produce an image: embedding and sampling succeed, but `embeddings_to_imgs`
then raises `TypeError` at line 246 (`with torch.no_grad:` uses the
`torch.no_grad` class itself as a context manager instead of instantiating
it with `torch.no_grad()`), before `decode_latents` can run. -/
theorem C3_pipeline_no_grad_bug (env : Env) (st : SDState) :
    (prompts_to_imgs env st (["a red apple"].map PromptItem.str) 512 512 1
      (7.5 : ℚ) none).result = .error .typeError := by
  have hgte := gte_spec env ["a red apple"] (List.cons_ne_nil _ _)
  rw [prompts_to_imgs_ok env st _ 512 512 1 (7.5 : ℚ) none _ 2 hgte rfl]
  exact embeddings_to_imgs_no_grad_crash env st _ 512 512 (7.5 : ℚ) 1 1 rfl
    (by omega) (by omega) rfl rfl
